import Mathlib

/-!
Verification of the landlab BMI adapter layer
(src/landlab/components/{soil_moisture,diffusion,overland_flow}/bmi.py).

The three adapters are shallowly embedded as pure state-transition
functions.  Python exceptions are modelled by returning the state at the
point the exception is raised together with an error kind; numeric
quantities are rationals; numpy arrays are lists of rationals living in
an explicit heap so that aliasing (the variable store is bound to live
grid arrays) and copying (numpy .copy()) can be expressed.  The wrapped
numerical models (SoilMoisture, Diffusion, OverlandFlow) are external to
the adapter files; their effect on the grid arrays is abstracted as an
oracle argument that either produces a new heap or fails.
-/

set_option autoImplicit false

namespace Landlab

/-- Error kinds of the adapter contract, together with the raw Python
exception kinds the source actually raises.  ValueError raises in the
source are mapped to the contract kind named by the message
(InvalidParameter, NegativeTimeStep, OutOfRange, ShapeMismatch); KeyError
maps to UnknownVariable. -/
inductive Err where
  | invalidParameter
  | invalidState
  | negativeTimeStep
  | outOfRange
  | unknownVariable
  | shapeMismatch
  | typeErrorNone
  | attributeError
  | nameError
  | notImplemented
  | zeroDivision
  | wrappedModelError
deriving DecidableEq, Repr

/-- A heap of numeric arrays.  Addresses are list positions; grid field
arrays and the variable store entries that alias them are heap cells. -/
structure Heap where
  cells : List (List ℚ)
deriving DecidableEq, Repr

/-- Contents of the array at address a (out-of-range reads never occur in
the adapters; they give the empty array). -/
def Heap.read (h : Heap) (a : Nat) : List ℚ :=
  (h.cells[a]?).getD []

/-- In-place overwrite of the array at address a. -/
def Heap.write (h : Heap) (a : Nat) (v : List ℚ) : Heap :=
  ⟨h.cells.set a v⟩

/-- Address a fresh allocation would receive. -/
def Heap.allocAddr (h : Heap) : Nat := h.cells.length

/-- Allocate a new array (numpy .copy() allocates). -/
def Heap.alloc (h : Heap) (v : List ℚ) : Heap :=
  ⟨h.cells ++ [v]⟩

/-- Python dict lookup on the variable store (name to heap address). -/
def lookupVar (k : String) : List (String × Nat) → Option Nat
  | [] => none
  | (k', a) :: rest => if k = k' then some a else lookupVar k rest

/-- NumPy semantics of the one-dimensional slice assignment
target[:] = src.flat used by set_value: an equal-length source is copied
element for element, a length-one source is broadcast to every element of
the target, and any other length mismatch raises ValueError without
mutating the target. -/
def numpyFlatAssign (target src : List ℚ) : Option (List ℚ) :=
  if src.length = target.length then some src
  else if src.length = 1 then some (List.replicate target.length (src.headD 0))
  else none

namespace BmiSoilMoisture

/-- The fixed standard-name to grid-field-name translation table
(soil_moisture/bmi.py, module constant). -/
def NAME_MAP : List (String × String) :=
  [("vegetated_land__area_fraction", "VegetationCover"),
   ("land_vegetation__leaf-area-index", "LiveLeafAreaIndex"),
   ("potential_land_surface_water__evaporation_volume_flux",
    "PotentialEvapotranspiration"),
   ("land_surface_water__magnitude_of_shear_stress", "WaterStress"),
   ("soil_water__saturated_volume_fraction", "SaturationFraction"),
   ("Drainage", "Drainage"),
   ("land_surface_water__volume_flow_rate", "Runoff"),
   ("land_surface_water__evaporation_volume_flux", "ActualEvapotranspiration")]

def input_var_names : List String :=
  ["vegetated_land__area_fraction",
   "land_vegetation__leaf-area-index",
   "potential_land_surface_water__evaporation_volume_flux"]

def output_var_names : List String :=
  ["land_surface_water__magnitude_of_shear_stress",
   "soil_water__saturated_volume_fraction",
   "Drainage",
   "land_surface_water__volume_flow_rate",
   "land_surface_water__evaporation_volume_flux"]

/-- Adapter state of BmiSoilMoisture.  Option fields model Python
attributes that are None on a freshly constructed adapter; tb_frac is not
set at all before from_keywords runs (an access then raises
AttributeError), while time and time_step are set to None (arithmetic on
them raises TypeError).  sm_constructed records whether self._sm is bound
to a SoilMoisture model instance. -/
structure State where
  heap : Heap
  sm_constructed : Bool
  values : List (String × Nat)
  time_step : Option ℚ
  time : Option ℚ
  tb_frac : Option ℚ
deriving DecidableEq, Repr

/-- The state produced by BmiSoilMoisture.__init__. -/
def State.new : State :=
  { heap := ⟨[]⟩, sm_constructed := false, values := [],
    time_step := none, time := none, tb_frac := none }

/-- Modelled from the spec: the wrapped SoilMoisture component
(landlab.components.soil_moisture.soil_moisture_field, not under src/)
creates, when constructed on the grid, the remaining cell fields named in
the translation table (WaterStress, SaturationFraction, Drainage, Runoff,
ActualEvapotranspiration), so that every name in the table resolves to a
grid field array. -/
def soilMoistureCtorFields (ncells : Nat) : List (String × List ℚ) :=
  [("WaterStress", List.replicate ncells 0),
   ("SaturationFraction", List.replicate ncells 0),
   ("Drainage", List.replicate ncells 0),
   ("Runoff", List.replicate ncells 0),
   ("ActualEvapotranspiration", List.replicate ncells 0)]

/-- The grid cell fields present after from_keywords has seeded the grid
(four fields added explicitly, in order, with random or constant initial
values) and the SoilMoisture model has been constructed on it.  The grid
itself (landlab.grid.raster, not under src/) is modelled per the spec as
named field arrays over the (n_rows - 2) * (n_cols - 2) interior cells. -/
def gridFields (ncells : Nat) (rand : Nat → ℚ) : List (String × List ℚ) :=
  [("VegetationCover", (List.range ncells).map rand),
   ("LiveLeafAreaIndex", List.replicate ncells 3),
   ("PotentialEvapotranspiration", List.replicate ncells 6),
   ("InitialSaturationFraction",
    (List.range ncells).map fun i => rand (ncells + i))]
  ++ soilMoistureCtorFields ncells

/-- Field-name to heap-address table of the grid (at_cell): fields are
allocated in order at consecutive addresses. -/
def fieldAddrs (gf : List (String × List ℚ)) : List (String × Nat) :=
  gf.enum.map fun p => (p.2.1, p.1)

/-- BmiSoilMoisture.from_keywords.  Parameter validation happens before
any assignment to self, so a validation failure leaves the adapter state
untouched.  rand supplies the np.random.rand draws. -/
def from_keywords (s : State) (n_rows n_cols : ℤ) (spacing dt tb_frac : ℚ)
    (rand : Nat → ℚ) : State × Option Err :=
  if tb_frac < 0 ∨ 1 < tb_frac then (s, some Err.invalidParameter)
  else if n_rows ≤ 0 ∨ n_cols ≤ 0 then (s, some Err.invalidParameter)
  else if spacing ≤ 0 then (s, some Err.invalidParameter)
  else
    let ncells : Nat := ((n_rows - 2) * (n_cols - 2)).toNat
    let gf := gridFields ncells rand
    match NAME_MAP.mapM (fun p =>
        (lookupVar p.2 (fieldAddrs gf)).map fun a => (p.1, a)) with
    | none => (s, some Err.unknownVariable)
    | some vals =>
      ({ heap := ⟨gf.map Prod.snd⟩, sm_constructed := true, values := vals,
         time_step := some dt, time := some 0, tb_frac := some tb_frac },
       none)

/-- BmiSoilMoisture.update_frac.  mdl abstracts the wrapped call
self._sm.update(0., Tb, Tr): given the Tb and Tr arguments and the
current heap it either produces the mutated heap or fails.  The range
check comes first; the time advance self._time += dt comes only after the
wrapped call has returned. -/
def update_frac (mdl : ℚ → ℚ → Heap → Option Heap) (s : State)
    (dt_frac : ℚ) : State × Option Err :=
  if dt_frac ≤ 0 ∨ 1 < dt_frac then (s, some Err.outOfRange)
  else
    match s.time_step with
    | none => (s, some Err.typeErrorNone)
    | some ts =>
      match s.tb_frac with
      | none => (s, some Err.attributeError)
      | some tbf =>
        if s.sm_constructed then
          match mdl (ts * dt_frac * tbf * 24) (ts * dt_frac * (1 - tbf) * 24)
              s.heap with
          | none => (s, some Err.wrappedModelError)
          | some h2 =>
            match s.time with
            | none => ({ s with heap := h2 }, some Err.typeErrorNone)
            | some t =>
              ({ s with heap := h2, time := some (t + ts * dt_frac) }, none)
        else (s, some Err.attributeError)

/-- BmiSoilMoisture.update: defined in the source as update_frac(1.). -/
def update (mdl : ℚ → ℚ → Heap → Option Heap) (s : State) :
    State × Option Err :=
  update_frac mdl s 1

/-- The for loop of update_until: n whole update calls, stopping at the
state reached when a call raises. -/
def run_updates (mdl : ℚ → ℚ → Heap → Option Heap) :
    Nat → State → State × Option Err
  | 0, s => (s, none)
  | Nat.succ k, s =>
    match update mdl s with
    | (s', none) => run_updates mdl k s'
    | (s', some e) => (s', some e)

/-- BmiSoilMoisture.update_until: computes n_steps = (then - time) / dt,
rejects a negative n_steps, runs int(n_steps) whole updates, and then
always calls update_frac(n_steps - int(n_steps)). -/
def update_until (mdl : ℚ → ℚ → Heap → Option Heap) (s : State)
    (tgt : ℚ) : State × Option Err :=
  match s.time, s.time_step with
  | some t, some ts =>
    if ts = 0 then (s, some Err.zeroDivision)
    else if (tgt - t) / ts < 0 then (s, some Err.negativeTimeStep)
    else
      match run_updates mdl ((tgt - t) / ts).floor.toNat s with
      | (s', none) =>
        update_frac mdl s' ((tgt - t) / ts - (((tgt - t) / ts).floor : ℚ))
      | (s', some e) => (s', some e)
  | _, _ => (s, some Err.typeErrorNone)

/-- BmiSoilMoisture.get_value_ptr: the live array for an output variable
(its heap address), KeyError for any other name. -/
def get_value_ptr (s : State) (name : String) : Except Err Nat :=
  if name ∈ output_var_names then
    match lookupVar name s.values with
    | some a => Except.ok a
    | none => Except.error Err.unknownVariable
  else Except.error Err.unknownVariable

/-- BmiSoilMoisture.get_value: numpy .copy() of the live array, modelled
as a fresh heap allocation holding the same contents; returns the state
with the extended heap and the address of the copy. -/
def get_value (s : State) (name : String) : Except Err (State × Nat) :=
  match get_value_ptr s name with
  | Except.error e => Except.error e
  | Except.ok a =>
    Except.ok ({ s with heap := s.heap.alloc (s.heap.read a) },
               s.heap.allocAddr)

/-- BmiSoilMoisture.set_value: in-place overwrite val[:] = src.flat of an
input variable, KeyError for any other name. -/
def set_value (s : State) (name : String) (src : List ℚ) :
    State × Option Err :=
  if name ∈ input_var_names then
    match lookupVar name s.values with
    | none => (s, some Err.unknownVariable)
    | some a =>
      match numpyFlatAssign (s.heap.read a) src with
      | none => (s, some Err.shapeMismatch)
      | some v => ({ s with heap := s.heap.write a v }, none)
  else (s, some Err.unknownVariable)

end BmiSoilMoisture

namespace BmiStreamPower

def input_var_names : List String := ["land_surface__elevation"]

def output_var_names : List String :=
  ["land_surface__elevation",
   "land_surface_water_suspended-sediment__divergence_of_unit-width_discharge"]

/-- The wrapped Diffusion solver object: the adapter reads both the
current time (self._diffusion.current_time) and the time step
(self._diffusion.dt) from it. -/
structure DiffusionModel where
  current_time : ℚ
  dt : ℚ
deriving DecidableEq, Repr

/-- Adapter state of BmiStreamPower (the diffusion adapter).  diffusion
is None on a freshly constructed adapter; any attribute access on it then
raises AttributeError. -/
structure State where
  heap : Heap
  values : List (String × Nat)
  diffusion : Option DiffusionModel
deriving DecidableEq, Repr

/-- The state produced by BmiStreamPower.__init__. -/
def State.new : State := { heap := ⟨[]⟩, values := [], diffusion := none }

/-- Modelled from the spec: Diffusion.run_one_step_internal
(landlab.components.diffusion.diffusion, not under src/) runs the solver
for the given duration and advances its internal current_time by exactly
that duration, leaving model and grid state unchanged when the numerical
step fails.  mdl abstracts the numerical effect on the grid arrays. -/
def run_one_step_internal (mdl : ℚ → Heap → Option Heap)
    (m : DiffusionModel) (h : Heap) (dt : ℚ) :
    Option (DiffusionModel × Heap) :=
  (mdl dt h).map fun h2 => ({ m with current_time := m.current_time + dt }, h2)

/-- Modelled from the spec: BmiStreamPower.initialize parses nrows,
ncols, dx from the parameter file, builds the grid, and constructs the
Diffusion solver with current_time = 0; the solver creates the two node
fields the adapter binds (landscape_surface__elevation and
sediment_flux_divergence) and carries the parsed time step dt.  elev
supplies the initial elevation field.  The source method name clashes
with a Lean keyword, hence the name here. -/
def init_from_params (nrows ncols : ℤ) (dt : ℚ) (elev : Nat → ℚ) : State :=
  let nnodes : Nat := (nrows * ncols).toNat
  { heap := ⟨[(List.range nnodes).map elev, List.replicate nnodes 0]⟩,
    values :=
      [("land_surface__elevation", 0),
       ("land_surface_water_suspended-sediment__divergence_of_unit-width_discharge",
        1)],
    diffusion := some { current_time := 0, dt := dt } }

/-- BmiStreamPower.update_frac: range check, then
self._diffusion.run_one_step_internal(self.get_time_step() * dt_frac);
get_time_step reads self._diffusion.dt, so an uninitialized adapter
raises AttributeError there. -/
def update_frac (mdl : ℚ → Heap → Option Heap) (s : State) (dt_frac : ℚ) :
    State × Option Err :=
  if dt_frac ≤ 0 ∨ 1 < dt_frac then (s, some Err.outOfRange)
  else
    match s.diffusion with
    | none => (s, some Err.attributeError)
    | some m =>
      match run_one_step_internal mdl m s.heap (m.dt * dt_frac) with
      | none => (s, some Err.wrappedModelError)
      | some (m2, h2) =>
        ({ heap := h2, values := s.values, diffusion := some m2 }, none)

/-- BmiStreamPower.update: defined in the source as update_frac(1.). -/
def update (mdl : ℚ → Heap → Option Heap) (s : State) : State × Option Err :=
  update_frac mdl s 1

/-- The for loop of BmiStreamPower.update_until. -/
def run_updates (mdl : ℚ → Heap → Option Heap) :
    Nat → State → State × Option Err
  | 0, s => (s, none)
  | Nat.succ k, s =>
    match update mdl s with
    | (s', none) => run_updates mdl k s'
    | (s', some e) => (s', some e)

/-- BmiStreamPower.update_until: identical structure to the soil-moisture
adapter, with time and time step read from the wrapped solver. -/
def update_until (mdl : ℚ → Heap → Option Heap) (s : State) (tgt : ℚ) :
    State × Option Err :=
  match s.diffusion with
  | none => (s, some Err.attributeError)
  | some m =>
    if m.dt = 0 then (s, some Err.zeroDivision)
    else if (tgt - m.current_time) / m.dt < 0 then
      (s, some Err.negativeTimeStep)
    else
      match run_updates mdl ((tgt - m.current_time) / m.dt).floor.toNat s with
      | (s', none) =>
        update_frac mdl s'
          ((tgt - m.current_time) / m.dt -
            ((((tgt - m.current_time) / m.dt).floor : ℤ) : ℚ))
      | (s', some e) => (s', some e)

/-- BmiStreamPower.get_value_ptr. -/
def get_value_ptr (s : State) (name : String) : Except Err Nat :=
  if name ∈ output_var_names then
    match lookupVar name s.values with
    | some a => Except.ok a
    | none => Except.error Err.unknownVariable
  else Except.error Err.unknownVariable

/-- BmiStreamPower.get_value: numpy .copy() of the live array. -/
def get_value (s : State) (name : String) : Except Err (State × Nat) :=
  match get_value_ptr s name with
  | Except.error e => Except.error e
  | Except.ok a =>
    Except.ok ({ s with heap := s.heap.alloc (s.heap.read a) },
               s.heap.allocAddr)

/-- BmiStreamPower.set_value. -/
def set_value (s : State) (name : String) (src : List ℚ) :
    State × Option Err :=
  if name ∈ input_var_names then
    match lookupVar name s.values with
    | none => (s, some Err.unknownVariable)
    | some a =>
      match numpyFlatAssign (s.heap.read a) src with
      | none => (s, some Err.shapeMismatch)
      | some v => ({ s with heap := s.heap.write a v }, none)
  else (s, some Err.unknownVariable)

end BmiStreamPower

namespace BmiOverlandFlow

/-- Adapter state of BmiOverlandFlow.  of_constructed records whether
self._overland_flow is bound (attribute access on None raises
AttributeError before the unbound local z is even evaluated). -/
structure State where
  heap : Heap
  values : List (String × Nat)
  time_step : Option ℚ
  time : Option ℚ
  of_constructed : Bool
deriving DecidableEq, Repr

/-- The state produced by BmiOverlandFlow.__init__. -/
def State.new : State :=
  { heap := ⟨[]⟩, values := [], time_step := none, time := none,
    of_constructed := false }

/-- BmiOverlandFlow.update: the call
self._overland_flow.flow_across_grid(self._grid, z) references the
unbound local z, so a Ready adapter raises NameError before any wrapped
call; an uninitialized one raises AttributeError on the method lookup. -/
def update (s : State) : State × Option Err :=
  if s.of_constructed then (s, some Err.nameError)
  else (s, some Err.attributeError)

/-- BmiOverlandFlow.update_frac: after the range check, the source
computes dt and then unconditionally raises NotImplementedError; the line
self._time += dt below the raise is unreachable, so time never
advances. -/
def update_frac (s : State) (dt_frac : ℚ) : State × Option Err :=
  if dt_frac ≤ 0 ∨ 1 < dt_frac then (s, some Err.outOfRange)
  else
    match s.time_step with
    | none => (s, some Err.typeErrorNone)
    | some _ => (s, some Err.notImplemented)

/-- The for loop of BmiOverlandFlow.update_until. -/
def run_updates : Nat → State → State × Option Err
  | 0, s => (s, none)
  | Nat.succ k, s =>
    match update s with
    | (s', none) => run_updates k s'
    | (s', some e) => (s', some e)

/-- BmiOverlandFlow.update_until: same negative-step guard as the other
adapters, then the whole-step loop, then an unconditional raise
NotImplementedError (the fractional call is commented out). -/
def update_until (s : State) (tgt : ℚ) : State × Option Err :=
  match s.time, s.time_step with
  | some t, some ts =>
    if ts = 0 then (s, some Err.zeroDivision)
    else if (tgt - t) / ts < 0 then (s, some Err.negativeTimeStep)
    else
      match run_updates ((tgt - t) / ts).floor.toNat s with
      | (s', none) => (s', some Err.notImplemented)
      | (s', some e) => (s', some e)
  | _, _ => (s, some Err.typeErrorNone)

end BmiOverlandFlow

/-! Concrete wrapped-model oracles and adapter states used to evaluate
the embedded operations at specific inputs. -/

/-- A wrapped soil-moisture step that succeeds and leaves the grid arrays
as they are. -/
def smOk : ℚ → ℚ → Heap → Option Heap := fun _ _ h => some h

/-- A wrapped soil-moisture step that fails. -/
def smFail : ℚ → ℚ → Heap → Option Heap := fun _ _ _ => none

/-- A wrapped diffusion step that succeeds and leaves the grid arrays as
they are. -/
def diffOk : ℚ → Heap → Option Heap := fun _ h => some h

/-- A wrapped diffusion step that fails. -/
def diffFail : ℚ → Heap → Option Heap := fun _ _ => none

/-- A Ready soil-moisture adapter: the state actually produced by
from_keywords(n_rows=4, n_cols=4, spacing=1, dt=1, tb_frac=1) with all
random draws equal to 0. -/
def smR : BmiSoilMoisture.State :=
  (BmiSoilMoisture.from_keywords BmiSoilMoisture.State.new 4 4 1 1 1
    (fun _ => 0)).1

/-- A Ready diffusion adapter produced by initialization with a 3 x 3
grid, dt = 1, and a flat initial elevation field. -/
def diffR : BmiStreamPower.State :=
  BmiStreamPower.init_from_params 3 3 1 (fun _ => 0)

/-- A Ready overland-flow adapter state: time step 1, time 0, the store
bound to the seven node fields listed in initialize. -/
def ofR : BmiOverlandFlow.State :=
  { heap := ⟨[[0], [0], [0], [0], [0], [0], [0]]⟩,
    values :=
      [("land_surface_water__depth", 0),
       ("land_surface_water__volume_flow_rate", 1),
       ("land_surface_water__magnitude_of_shear_stress", 2),
       ("land_surface__slope", 3),
       ("atmosphere_water__precipitation_rate", 4),
       ("atmosphere_water__precipitation_duration", 5),
       ("land_surface__elevation", 6)],
    time_step := some 1, time := some 0, of_constructed := true }

/-! Theorems settling the claims. -/

/-- Claim C6: for every Ready adapter (time bound, positive time step)
and every target time strictly below the current time, update_until fails
with NegativeTimeStep and returns the whole adapter state, in particular
the current time, unchanged.  Stated for all three adapters. -/
theorem update_until_negative_target :
    (∀ (mdl : ℚ → ℚ → Heap → Option Heap) (s : BmiSoilMoisture.State)
        (t ts tgt : ℚ), s.time = some t → s.time_step = some ts → 0 < ts →
        tgt < t →
        BmiSoilMoisture.update_until mdl s tgt =
          (s, some Err.negativeTimeStep)) ∧
    (∀ (mdl : ℚ → Heap → Option Heap) (s : BmiStreamPower.State)
        (m : BmiStreamPower.DiffusionModel) (tgt : ℚ),
        s.diffusion = some m → 0 < m.dt → tgt < m.current_time →
        BmiStreamPower.update_until mdl s tgt =
          (s, some Err.negativeTimeStep)) ∧
    (∀ (s : BmiOverlandFlow.State) (t ts tgt : ℚ), s.time = some t →
        s.time_step = some ts → 0 < ts → tgt < t →
        BmiOverlandFlow.update_until s tgt =
          (s, some Err.negativeTimeStep)) := by
  refine ⟨?_, ?_, ?_⟩
  · intro mdl s t ts tgt ht hts hpos hlt
    have h0 : ts ≠ 0 := ne_of_gt hpos
    have hneg : (tgt - t) / ts < 0 :=
      div_neg_of_neg_of_pos (by linarith) hpos
    simp [BmiSoilMoisture.update_until, ht, hts, h0, hneg]
  · intro mdl s m tgt hd hpos hlt
    have h0 : m.dt ≠ 0 := ne_of_gt hpos
    have hneg : (tgt - m.current_time) / m.dt < 0 :=
      div_neg_of_neg_of_pos (by linarith) hpos
    simp [BmiStreamPower.update_until, hd, h0, hneg]
  · intro s t ts tgt ht hts hpos hlt
    have h0 : ts ≠ 0 := ne_of_gt hpos
    have hneg : (tgt - t) / ts < 0 :=
      div_neg_of_neg_of_pos (by linarith) hpos
    simp [BmiOverlandFlow.update_until, ht, hts, h0, hneg]

/-- Witness for update_until_negative_target: the three concrete Ready
adapter states at time 0 with time step 1, asked to update until -1. -/
theorem update_until_negative_target_witness :
    BmiSoilMoisture.update_until smOk smR (-1) =
      (smR, some Err.negativeTimeStep) ∧
    BmiStreamPower.update_until diffOk diffR (-1) =
      (diffR, some Err.negativeTimeStep) ∧
    BmiOverlandFlow.update_until ofR (-1) =
      (ofR, some Err.negativeTimeStep) :=
  ⟨update_until_negative_target.1 smOk smR 0 1 (-1) rfl rfl (by norm_num)
      (by norm_num),
   update_until_negative_target.2.1 diffOk diffR
      { current_time := 0, dt := 1 } (-1) rfl (by norm_num) (by norm_num),
   update_until_negative_target.2.2 ofR 0 1 (-1) rfl rfl (by norm_num)
      (by norm_num)⟩

/-- Claim C9: for every adapter state and every fraction outside (0, 1],
update_frac fails with OutOfRange and returns the adapter state (current
time and variable store) unchanged.  Stated for all three adapters. -/
theorem update_frac_out_of_range :
    ∀ frac : ℚ, frac ≤ 0 ∨ 1 < frac →
      (∀ (mdl : ℚ → ℚ → Heap → Option Heap) (s : BmiSoilMoisture.State),
        BmiSoilMoisture.update_frac mdl s frac = (s, some Err.outOfRange)) ∧
      (∀ (mdl : ℚ → Heap → Option Heap) (s : BmiStreamPower.State),
        BmiStreamPower.update_frac mdl s frac = (s, some Err.outOfRange)) ∧
      (∀ s : BmiOverlandFlow.State,
        BmiOverlandFlow.update_frac s frac = (s, some Err.outOfRange)) := by
  intro frac h
  refine ⟨fun mdl s => ?_, fun mdl s => ?_, fun s => ?_⟩
  · unfold BmiSoilMoisture.update_frac
    rw [if_pos h]
  · unfold BmiStreamPower.update_frac
    rw [if_pos h]
  · unfold BmiOverlandFlow.update_frac
    rw [if_pos h]

/-- Witness for update_frac_out_of_range: fractions 0 and 1.5 on the
three concrete Ready adapter states. -/
theorem update_frac_out_of_range_witness :
    BmiSoilMoisture.update_frac smOk smR 0 = (smR, some Err.outOfRange) ∧
    BmiSoilMoisture.update_frac smOk smR (3 / 2) =
      (smR, some Err.outOfRange) ∧
    BmiStreamPower.update_frac diffOk diffR 0 =
      (diffR, some Err.outOfRange) ∧
    BmiStreamPower.update_frac diffOk diffR (3 / 2) =
      (diffR, some Err.outOfRange) ∧
    BmiOverlandFlow.update_frac ofR 0 = (ofR, some Err.outOfRange) ∧
    BmiOverlandFlow.update_frac ofR (3 / 2) = (ofR, some Err.outOfRange) :=
  ⟨(update_frac_out_of_range 0 (by norm_num)).1 smOk smR,
   (update_frac_out_of_range (3 / 2) (by norm_num)).1 smOk smR,
   (update_frac_out_of_range 0 (by norm_num)).2.1 diffOk diffR,
   (update_frac_out_of_range (3 / 2) (by norm_num)).2.1 diffOk diffR,
   (update_frac_out_of_range 0 (by norm_num)).2.2 ofR,
   (update_frac_out_of_range (3 / 2) (by norm_num)).2.2 ofR⟩

/-- Claim C8: from_keywords validates tb_frac ∈ [0, 1], positive row and
column counts, and positive spacing before assigning anything to the
adapter; every violation fails with InvalidParameter and returns the
adapter state unchanged (still uninitialized when it was). -/
theorem from_keywords_invalid_parameter :
    ∀ (s : BmiSoilMoisture.State) (n_rows n_cols : ℤ)
      (spacing dt tb_frac : ℚ) (rand : Nat → ℚ),
      tb_frac < 0 ∨ 1 < tb_frac ∨ n_rows ≤ 0 ∨ n_cols ≤ 0 ∨ spacing ≤ 0 →
      BmiSoilMoisture.from_keywords s n_rows n_cols spacing dt tb_frac rand =
        (s, some Err.invalidParameter) := by
  intro s n_rows n_cols spacing dt tb rand h
  unfold BmiSoilMoisture.from_keywords
  split_ifs with h1 h2 h3
  · rfl
  · rfl
  · rfl
  · exfalso
    rw [not_or] at h1 h2
    rcases h with h | h | h | h | h
    · exact h1.1 h
    · exact h1.2 h
    · exact h2.1 h
    · exact h2.2 h
    · exact h3 h

/-- Witness for from_keywords_invalid_parameter: n_rows = 0 on a freshly
constructed adapter fails with InvalidParameter and leaves it as
constructed. -/
theorem from_keywords_invalid_parameter_witness :
    BmiSoilMoisture.from_keywords BmiSoilMoisture.State.new 0 10 1 1 1
      (fun _ => 0) = (BmiSoilMoisture.State.new, some Err.invalidParameter) :=
  from_keywords_invalid_parameter BmiSoilMoisture.State.new 0 10 1 1 1
    (fun _ => 0) (Or.inr (Or.inr (Or.inl le_rfl)))

/-- The variable store built by the from_keywords loop over the name
table: every standard name resolves, at the fixed addresses given by the
field allocation order, whatever the cell count and the random draws. -/
theorem sm_values_mapM (ncells : Nat) (rand : Nat → ℚ) :
    BmiSoilMoisture.NAME_MAP.mapM (fun p =>
      (lookupVar p.2 (BmiSoilMoisture.fieldAddrs
        (BmiSoilMoisture.gridFields ncells rand))).map fun a => (p.1, a)) =
    some [("vegetated_land__area_fraction", 0),
          ("land_vegetation__leaf-area-index", 1),
          ("potential_land_surface_water__evaporation_volume_flux", 2),
          ("land_surface_water__magnitude_of_shear_stress", 4),
          ("soil_water__saturated_volume_fraction", 5),
          ("Drainage", 6),
          ("land_surface_water__volume_flow_rate", 7),
          ("land_surface_water__evaporation_volume_flux", 8)] := rfl

/-- Claim C10: after every successful initialization, every declared
output name (and in fact every declared input name as well) resolves to
an entry of the variable store, so get_value_ptr (and with it get_value)
on a declared output name never fails with a missing-key error in the
Ready state.  Stated for the soil-moisture adapter (from_keywords) and
the diffusion adapter (its initializer). -/
theorem init_output_names_resolve :
    (∀ (s s' : BmiSoilMoisture.State) (n_rows n_cols : ℤ)
        (spacing dt tb_frac : ℚ) (rand : Nat → ℚ),
        BmiSoilMoisture.from_keywords s n_rows n_cols spacing dt tb_frac
            rand = (s', none) →
        (∀ name ∈ BmiSoilMoisture.output_var_names,
          ∃ a, BmiSoilMoisture.get_value_ptr s' name = Except.ok a) ∧
        (∀ name ∈ BmiSoilMoisture.input_var_names,
          (lookupVar name s'.values).isSome = true)) ∧
    (∀ (nrows ncols : ℤ) (dt : ℚ) (elev : Nat → ℚ),
        ∀ name ∈ BmiStreamPower.output_var_names,
          ∃ a, BmiStreamPower.get_value_ptr
            (BmiStreamPower.init_from_params nrows ncols dt elev) name =
              Except.ok a) := by
  constructor
  · intro s s' n_rows n_cols spacing dt tb rand h
    unfold BmiSoilMoisture.from_keywords at h
    split_ifs at h
    · simp at h
    · simp at h
    · simp at h
    · simp only [sm_values_mapM] at h
      rw [Prod.mk.injEq] at h
      obtain ⟨h, -⟩ := h
      subst h
      constructor
      · intro name hname
        simp only [BmiSoilMoisture.output_var_names] at hname
        fin_cases hname
        · exact ⟨4, rfl⟩
        · exact ⟨5, rfl⟩
        · exact ⟨6, rfl⟩
        · exact ⟨7, rfl⟩
        · exact ⟨8, rfl⟩
      · intro name hname
        simp only [BmiSoilMoisture.input_var_names] at hname
        fin_cases hname
        · rfl
        · rfl
        · rfl
  · intro nrows ncols dt elev name hname
    simp only [BmiStreamPower.output_var_names] at hname
    fin_cases hname
    · exact ⟨0, rfl⟩
    · exact ⟨1, rfl⟩

/-- Witness for init_output_names_resolve: on the concrete Ready states
smR and diffR every output name resolves; shown here for one output name
of each adapter. -/
theorem init_output_names_resolve_witness :
    (∃ a, BmiSoilMoisture.get_value_ptr smR "Drainage" = Except.ok a) ∧
    (∃ a, BmiStreamPower.get_value_ptr diffR "land_surface__elevation" =
      Except.ok a) :=
  ⟨(init_output_names_resolve.1 BmiSoilMoisture.State.new smR 4 4 1 1 1
      (fun _ => 0) rfl).1 "Drainage" (by simp [BmiSoilMoisture.output_var_names]),
   init_output_names_resolve.2 3 3 1 (fun _ => 0) "land_surface__elevation"
     (by simp [BmiStreamPower.output_var_names])⟩

/-- Claim C5 (amended): set_value on a declared input name bound in the
store overwrites the stored array element for element when the flattened
source length equals the target length; a source of flattened length one
is broadcast by the numpy assignment, overwriting every element with its
single value rather than failing; every other length mismatch fails with
ShapeMismatch and leaves the adapter state, in particular the stored
array, unchanged. -/
theorem set_value_length_behavior :
    ∀ (s : BmiSoilMoisture.State) (name : String) (a : Nat) (src : List ℚ),
      name ∈ BmiSoilMoisture.input_var_names →
      lookupVar name s.values = some a →
      ((src.length = (s.heap.read a).length →
          BmiSoilMoisture.set_value s name src =
            ({ s with heap := s.heap.write a src }, none)) ∧
       (src.length ≠ (s.heap.read a).length → src.length = 1 →
          BmiSoilMoisture.set_value s name src =
            ({ s with
                heap :=
                  s.heap.write a
                    (List.replicate (s.heap.read a).length (src.headD 0)) },
             none)) ∧
       (src.length ≠ (s.heap.read a).length → src.length ≠ 1 →
          BmiSoilMoisture.set_value s name src =
            (s, some Err.shapeMismatch))) := by
  intro s name a src hmem hlook
  refine ⟨fun h => ?_, fun h h1 => ?_, fun h h1 => ?_⟩
  · simp [BmiSoilMoisture.set_value, numpyFlatAssign, hmem, hlook, h]
  · have h2 : ¬((1 : Nat) = (s.heap.read a).length) := h1 ▸ h
    simp [BmiSoilMoisture.set_value, numpyFlatAssign, hmem, hlook, h, h1, h2]
  · simp [BmiSoilMoisture.set_value, numpyFlatAssign, hmem, hlook, h, h1]

/-- Claim C5 counterexample: on the Ready adapter smR the stored array
for vegetated_land__area_fraction has length 4; the length-1 source [7]
differs in flattened length from the target, yet set_value succeeds
(numpy broadcasts) and overwrites every element with 7 instead of
failing with ShapeMismatch. -/
theorem set_value_broadcast_counterexample :
    [(7 : ℚ)].length ≠ (smR.heap.read 0).length ∧
    (BmiSoilMoisture.set_value smR "vegetated_land__area_fraction"
      [7]).2 = none ∧
    (BmiSoilMoisture.set_value smR "vegetated_land__area_fraction"
      [7]).1.heap.read 0 = [7, 7, 7, 7] := by decide

/-- Witness for set_value_length_behavior: a length-3 source against the
length-4 stored array fails with ShapeMismatch and leaves the state
unchanged. -/
theorem set_value_length_behavior_witness :
    BmiSoilMoisture.set_value smR "vegetated_land__area_fraction"
      [1, 2, 3] = (smR, some Err.shapeMismatch) :=
  (set_value_length_behavior smR "vegetated_land__area_fraction" 0 [1, 2, 3]
    (by simp [BmiSoilMoisture.input_var_names]) rfl).2.2 (by decide)
    (by decide)

/-- Claim C7: for a Ready adapter whose store binds a declared output
name to an in-range heap array, get_value allocates a fresh copy: it
holds the same contents as the live array but lives at a different
address, and overwriting the copy leaves the array that get_value_ptr
aliases unchanged; get_value_ptr returns the live alias itself, so a
write through it is immediately visible in the store. -/
theorem get_value_copy_semantics :
    ∀ (s : BmiSoilMoisture.State) (name : String) (a : Nat),
      name ∈ BmiSoilMoisture.output_var_names →
      lookupVar name s.values = some a → a < s.heap.cells.length →
      BmiSoilMoisture.get_value s name =
        Except.ok ({ s with heap := s.heap.alloc (s.heap.read a) },
                   s.heap.allocAddr) ∧
      BmiSoilMoisture.get_value_ptr s name = Except.ok a ∧
      (s.heap.alloc (s.heap.read a)).read s.heap.allocAddr =
        s.heap.read a ∧
      s.heap.allocAddr ≠ a ∧
      (∀ v, ((s.heap.alloc (s.heap.read a)).write s.heap.allocAddr v).read
        a = s.heap.read a) ∧
      (∀ v, (s.heap.write a v).read a = v) ∧
      BmiSoilMoisture.get_value_ptr
        { s with heap := s.heap.alloc (s.heap.read a) } name =
          Except.ok a := by
  intro s name a hmem hlook ha
  have hptr : BmiSoilMoisture.get_value_ptr s name = Except.ok a := by
    unfold BmiSoilMoisture.get_value_ptr
    rw [if_pos hmem, hlook]
  refine ⟨?_, hptr, ?_, (Nat.ne_of_lt ha).symm, ?_, ?_, ?_⟩
  · unfold BmiSoilMoisture.get_value
    rw [hptr]
  · simp only [Heap.alloc, Heap.read, Heap.allocAddr]
    rw [List.getElem?_concat_length]
    rfl
  · intro v
    simp only [Heap.alloc, Heap.write, Heap.read, Heap.allocAddr]
    rw [List.getElem?_set_ne (Nat.ne_of_lt ha).symm,
      List.getElem?_append_left ha]
  · intro v
    simp only [Heap.write, Heap.read]
    rw [List.getElem?_set_eq_of_lt v ha]
    rfl
  · exact hptr

/-- Witness for get_value_copy_semantics: on the concrete Ready adapter
smR the shear-stress output lives at address 4 of a 9-cell heap; the copy
produced by get_value lives at the fresh address 9, overwriting it leaves
the aliased array intact, and a write through the alias is visible. -/
theorem get_value_copy_semantics_witness :
    BmiSoilMoisture.get_value smR
        "land_surface_water__magnitude_of_shear_stress" =
      Except.ok ({ smR with heap := smR.heap.alloc (smR.heap.read 4) }, 9) ∧
    (smR.heap.alloc (smR.heap.read 4)).read 9 = smR.heap.read 4 ∧
    (9 : Nat) ≠ 4 ∧
    ((smR.heap.alloc (smR.heap.read 4)).write 9 [9, 9, 9, 9]).read 4 =
      smR.heap.read 4 ∧
    (smR.heap.write 4 [9, 9, 9, 9]).read 4 = [9, 9, 9, 9] := by
  obtain ⟨h1, h2, h3, h4, h5, h6, h7⟩ :=
    get_value_copy_semantics smR
      "land_surface_water__magnitude_of_shear_stress" 4
      (by simp [BmiSoilMoisture.output_var_names]) rfl (by decide)
  exact ⟨h1, h3, by decide, h5 [9, 9, 9, 9], h6 [9, 9, 9, 9]⟩

attribute [local semireducible] Rat.add Rat.sub Rat.mul Rat.inv

/-- Claim C1 (divergence of the code at the failing input): on the Ready
soil-moisture adapter at time 0 with time step 1, update_until(2.0)
performs the two whole updates (the time does reach the target 2) but the
source then still calls update_frac on the zero remainder, which raises
OutOfRange, so update_frac(0) IS invoked and the call fails; the
diffusion adapter diverges identically.  A non-integer target such as 2.3
runs two whole steps plus one fractional step and lands exactly on the
target. -/
theorem update_until_zero_remainder_bug :
    BmiSoilMoisture.update_until smOk smR 2 =
      ({ smR with time := some 2 }, some Err.outOfRange) ∧
    BmiStreamPower.update_until diffOk diffR 2 =
      ({ diffR with diffusion := some { current_time := 2, dt := 1 } },
       some Err.outOfRange) ∧
    BmiSoilMoisture.update_until smOk smR (23 / 10) =
      ({ smR with time := some (23 / 10) }, none) := by decide

/-- Claim C2 (code behavior at concrete inputs): on the Ready
soil-moisture adapter a successful wrapped call makes update_frac advance
the time by exactly time_step * fraction, and a failing wrapped call
leaves the whole state, in particular the time, unchanged; likewise for
the diffusion adapter.  The Ready overland-flow adapter instead raises
NotImplementedError from update_frac without ever invoking a wrapped
model or advancing its time, diverging from the claim. -/
theorem update_frac_advance_and_rollback :
    BmiSoilMoisture.update_frac smOk smR (1 / 2) =
      ({ smR with time := some (1 / 2) }, none) ∧
    BmiSoilMoisture.update_frac smFail smR (1 / 2) =
      (smR, some Err.wrappedModelError) ∧
    BmiStreamPower.update_frac diffOk diffR (1 / 2) =
      ({ diffR with diffusion := some { current_time := 1 / 2, dt := 1 } },
       none) ∧
    BmiStreamPower.update_frac diffFail diffR (1 / 2) =
      (diffR, some Err.wrappedModelError) ∧
    BmiOverlandFlow.update_frac ofR (1 / 2) =
      (ofR, some Err.notImplemented) := by decide

/-- Claim C3: for the soil-moisture and diffusion adapters update() is
definitionally update_frac(1.0); for the Ready overland-flow adapter the
two differ: update() raises NameError on the unbound local z before any
wrapped call, while update_frac(1.0) raises NotImplementedError. -/
theorem update_vs_update_frac_one :
    (∀ (mdl : ℚ → ℚ → Heap → Option Heap) (s : BmiSoilMoisture.State),
      BmiSoilMoisture.update mdl s = BmiSoilMoisture.update_frac mdl s 1) ∧
    (∀ (mdl : ℚ → Heap → Option Heap) (s : BmiStreamPower.State),
      BmiStreamPower.update mdl s = BmiStreamPower.update_frac mdl s 1) ∧
    BmiOverlandFlow.update ofR = (ofR, some Err.nameError) ∧
    BmiOverlandFlow.update_frac ofR 1 = (ofR, some Err.notImplemented) ∧
    BmiOverlandFlow.update ofR ≠ BmiOverlandFlow.update_frac ofR 1 :=
  ⟨fun _ _ => rfl, fun _ _ => rfl, by decide, by decide, by decide⟩

/-- Claim C4 (divergence of the code on an uninitialized adapter): the
stepping operations of a freshly constructed adapter do not fail with an
InvalidState error at the boundary: the soil-moisture adapter raises
TypeError from arithmetic on the None time step deep inside update_frac,
update and update_until, and the diffusion adapter raises AttributeError
on its unbound wrapped solver. -/
theorem uninitialized_stepping_errors :
    BmiSoilMoisture.update_frac smOk BmiSoilMoisture.State.new (1 / 2) =
      (BmiSoilMoisture.State.new, some Err.typeErrorNone) ∧
    BmiSoilMoisture.update smOk BmiSoilMoisture.State.new =
      (BmiSoilMoisture.State.new, some Err.typeErrorNone) ∧
    BmiSoilMoisture.update_until smOk BmiSoilMoisture.State.new 1 =
      (BmiSoilMoisture.State.new, some Err.typeErrorNone) ∧
    BmiStreamPower.update_frac diffOk BmiStreamPower.State.new (1 / 2) =
      (BmiStreamPower.State.new, some Err.attributeError) ∧
    BmiStreamPower.update_until diffOk BmiStreamPower.State.new 1 =
      (BmiStreamPower.State.new, some Err.attributeError) ∧
    Err.typeErrorNone ≠ Err.invalidState ∧
    Err.attributeError ≠ Err.invalidState := by decide

end Landlab
